import Mathlib

/-!
Verification of the Bedrock Flow integration script (src/index.py).

The script is glue code around one outbound call: a Flask route (or the
test_flow helper) builds a JSON payload, hands it to
BedrockFlowClient.invoke_flow, which submits a request envelope to the
remote bedrock-agent-runtime service and normalizes the (possibly
streamed) answer into a uniform success/error envelope.

Embedding choices, all taken from the Python source:
- JSON values are a sum type; Python truthiness (`if not user_input`) is
  modelled by JValue.toBool exactly as Python evaluates each type
  (numbers are modelled as integers; no claim depends on non-integral
  numbers).
- The remote service is a parameter: a function from the request the
  client builds to either a response object or a raised exception.
- The streamed body is a finite list of items, each either a yielded
  event (a dict, i.e. an association list) or an exception raised during
  iteration, so that the try/except around stream consumption is
  observable.
- Raising is explicit: a function that can let an exception escape
  returns a sum of a normal result and a raised message.
-/

set_option maxHeartbeats 1000000

namespace BedrockFlow

/-- JSON values as produced by Flask request parsing and passed around the
script. Objects are association lists (insertion order, unique keys not
enforced; lookup takes the first binding, as a Python dict read does). -/
inductive JValue : Type where
  | null : JValue
  | bool : Bool → JValue
  | num : Int → JValue
  | str : String → JValue
  | arr : List JValue → JValue
  | obj : List (String × JValue) → JValue

/-- Python truthiness of a JSON value: None, False, 0, empty string, empty
list and empty dict are falsy; everything else is truthy. This is what
`if not user_input:` evaluates in the route. -/
def JValue.toBool : JValue → Bool
  | .null => false
  | .bool b => b
  | .num n => n != 0
  | .str s => s != ""
  | .arr l => !l.isEmpty
  | .obj l => !l.isEmpty

/-- Whether a JSON value is an object (a Python dict). Only dicts have the
`.get` method the route calls on the parsed body. -/
def JValue.isObj : JValue → Bool
  | .obj _ => true
  | _ => false

/-- First binding of a key in an association list: a Python dict read. -/
def lookupField : List (String × JValue) → String → Option JValue
  | [], _ => none
  | (k, v) :: rest, key => if k = key then some v else lookupField rest key

/-- Python `data.get(key, default)`: succeeds on a dict, raises
AttributeError on every other value (None, bool, number, string, list),
which is what happens on line 202 when the parsed body is not an object. -/
def pyGet (v : JValue) (key : String) (dflt : JValue) : Except String JValue :=
  match v with
  | .obj fields => .ok ((lookupField fields key).getD dflt)
  | _ => .error "AttributeError: object has no attribute get"

/-- BedrockFlowConfig (src/index.py lines 21-27). -/
structure BedrockFlowConfig : Type where
  flow_id : String
  flow_alias_id : String
  region : String
  api_gateway_url : Option String

/-- One event yielded by the response stream: a dict, as iterated on
line 87 of src/index.py. -/
abbrev FlowEvent := List (String × JValue)

/-- One step of consuming the streamed body: either the stream yields an
event, or iteration raises (transport error mid-stream, malformed remote
data). The raise case makes the try/except of _process_flow_response
observable in the model. -/
inductive StreamItem : Type where
  | event : FlowEvent → StreamItem
  | raise : String → StreamItem

/-- The boto3 invoke_flow response dict: `response.get('responseStream')`
is either absent/None or a botocore EventStream, modelled as the finite
list of items iteration would produce. -/
structure FlowResponse : Type where
  responseStream : Option (List StreamItem)

/-- The uniform envelope every operation of the script returns
(FlowInvocationResult in the spec). Fields that a given Python dict
literal omits are `none`. -/
structure Envelope : Type where
  success : Bool
  data : Option (List JValue)
  error : Option String
  timestamp : Option String

/-- The request envelope built by invoke_flow (src/index.py lines 53-63):
flow identifiers from the config, the caller payload under `content`, and
the two node-name constants. -/
structure FlowInvocationRequest : Type where
  flowIdentifier : String
  flowAliasIdentifier : String
  content : JValue
  nodeName : String
  nodeOutputName : String

/-- Construction of the request body, lines 53-63 of src/index.py. -/
def build_request (cfg : BedrockFlowConfig) (input_data : JValue) : FlowInvocationRequest :=
  ⟨cfg.flow_id, cfg.flow_alias_id, input_data, "FlowInputNode", "document"⟩

/-- The loop of lines 86-90: walk the stream, appending
`event['flowOutputEvent']` for every event that has that key; if
iteration raises, the exception propagates out of the loop (to the
enclosing except of _process_flow_response). -/
def consumeStream : List StreamItem → List JValue → Except String (List JValue)
  | [], result => .ok result
  | .event e :: rest, result =>
    match lookupField e "flowOutputEvent" with
    | some output => consumeStream rest (result ++ [output])
    | none => consumeStream rest result
  | .raise m :: _, _ => .error m

/-- The tagged outputs of a list of events, in arrival order: what the
loop of lines 86-90 collects when nothing raises. -/
def collectTagged (events : List FlowEvent) : List JValue :=
  events.filterMap fun e => lookupField e "flowOutputEvent"

/-- BedrockFlowClient._process_flow_response (src/index.py lines 78-110).
`if response_body:` on line 84 is true exactly when the key is present
and its value is not None: a botocore EventStream defines neither
__bool__ nor __len__, so a present stream is truthy even when it yields
zero events. Any exception raised while iterating is caught by the
except on line 104 and returned as the error envelope. -/
def process_flow_response (response : FlowResponse) (now : String) : Envelope :=
  match response.responseStream with
  | some response_body =>
    match consumeStream response_body [] with
    | .ok result => ⟨true, some result, none, some now⟩
    | .error e => ⟨false, none, some e, some now⟩
  | none => ⟨false, none, some "No response from flow", some now⟩

/-- Outcome of the outbound bedrock_agent.invoke_flow call on line 66:
either a response object or a raised exception. -/
inductive TransportOutcome : Type where
  | ok : FlowResponse → TransportOutcome
  | raise : String → TransportOutcome

/-- What a call to BedrockFlowClient.invoke_flow does from its caller's
point of view: return an envelope, or let an exception escape. -/
inductive InvokeResult : Type where
  | returns : Envelope → InvokeResult
  | raises : String → InvokeResult

/-- BedrockFlowClient.invoke_flow (src/index.py lines 39-76). The service
is a parameter mapping the built request to its outcome. The except on
lines 74-76 logs and re-raises, so a transport exception escapes to the
caller; only _process_flow_response normalizes. -/
def invoke_flow (cfg : BedrockFlowConfig) (service : FlowInvocationRequest → TransportOutcome)
    (input_data : JValue) (now : String) : InvokeResult :=
  match service (build_request cfg input_data) with
  | .ok response => .returns (process_flow_response response now)
  | .raise m => .raises m

/-- The flow input dict built by the route on lines 211-214:
`{'query': user_input, 'timestamp': now}`. -/
def route_flow_input (user_input : JValue) (now : String) : JValue :=
  .obj [("query", user_input), ("timestamp", .str now)]

/-- The flow input dict built by test_flow on lines 257-260:
`{'query': test_input, 'timestamp': now}`. -/
def test_flow_input (test_input : String) (now : String) : JValue :=
  .obj [("query", .str test_input), ("timestamp", .str now)]

/-- An HTTP response of the route: status code plus JSON envelope body. -/
structure HttpResponse : Type where
  status : Nat
  body : Envelope

/-- The error dicts the route and test_flow build inline
(`{'success': False, 'error': msg}`): no data, no timestamp. -/
def error_envelope (msg : String) : Envelope :=
  ⟨false, none, some msg, none⟩

/-- Outcome of `request.get_json()` on line 201: a parsed JSON value, or a
raised exception (absent body, wrong content type, unparseable JSON —
Flask raises, and the except on line 221 catches it). -/
inductive BodyOutcome : Type where
  | parsed : JValue → BodyOutcome
  | raise : String → BodyOutcome

/-- The POST /invoke-flow route handler (src/index.py lines 197-226).
Returns the HTTP response paired with the list of requests the handler
sent to the flow client, so that "the client is not invoked" is a
statement of the model. The body of the 400 and 500 responses is built
inline without a timestamp; the 200 response body is whatever envelope
the client returned. -/
def invoke_flow_route (cfg : BedrockFlowConfig)
    (service : FlowInvocationRequest → TransportOutcome)
    (body : BodyOutcome) (now : String) :
    HttpResponse × List FlowInvocationRequest :=
  match body with
  | .raise m => (⟨500, error_envelope m⟩, [])
  | .parsed data =>
    match pyGet data "input" (.str "") with
    | .error m => (⟨500, error_envelope m⟩, [])
    | .ok user_input =>
      if user_input.toBool then
        let flow_input := route_flow_input user_input now
        match invoke_flow cfg service flow_input now with
        | .returns result => (⟨200, result⟩, [build_request cfg flow_input])
        | .raises m => (⟨500, error_envelope m⟩, [build_request cfg flow_input])
      else
        (⟨400, error_envelope "No input provided"⟩, [])

/-- The body of the GET /health response (src/index.py lines 228-234). -/
structure HealthBody : Type where
  status : String
  timestamp : String

/-- The GET /health route handler (src/index.py lines 228-234): it reads
no collaborator and returns the jsonify default status 200. -/
def health_check (now : String) : Nat × HealthBody :=
  (200, ⟨"healthy", now⟩)

/-- BedrockFlowIntegration.test_flow (src/index.py lines 252-270), paired
with the requests sent to the client. The except on lines 265-270
converts an escaped exception into `{'success': False, 'error': msg}` —
again without a timestamp. -/
def test_flow (cfg : BedrockFlowConfig)
    (service : FlowInvocationRequest → TransportOutcome)
    (test_input : String) (now : String) :
    Envelope × List FlowInvocationRequest :=
  let flow_input := test_flow_input test_input now
  match invoke_flow cfg service flow_input now with
  | .returns result => (result, [build_request cfg flow_input])
  | .raises m => (error_envelope m, [build_request cfg flow_input])

/-- The envelope invariant of the spec: exactly one of data (when success)
or error (when failure) is populated, consistently with success. -/
def wellFormed (e : Envelope) : Bool :=
  if e.success then e.data.isSome && e.error.isNone
  else e.data.isNone && e.error.isSome

/-- A concrete configuration, for closed instances (the literal defaults
of src/index.py lines 282-284). -/
def cfg0 : BedrockFlowConfig :=
  ⟨"YOUR_FLOW_ID", "YOUR_FLOW_ALIAS_ID", "us-east-1", none⟩

/-- A service whose stream is present but yields no events. -/
def emptyStreamService : FlowInvocationRequest → TransportOutcome :=
  fun _ => .ok ⟨some []⟩

/-- A service that raises on every call (region down, bad credentials). -/
def downService : FlowInvocationRequest → TransportOutcome :=
  fun _ => .raise "boom"

/-- A service that returns a response with no responseStream. -/
def noStreamService : FlowInvocationRequest → TransportOutcome :=
  fun _ => .ok ⟨none⟩

/-- A tagged stream event carrying the output payload "out1". -/
def taggedEvent1 : FlowEvent := [("flowOutputEvent", JValue.str "out1")]

/-- An untagged stream event (no flowOutputEvent key). -/
def untaggedEvent : FlowEvent := [("otherEvent", JValue.null)]

/-- A service whose stream yields one tagged and one untagged event. -/
def twoEventService : FlowInvocationRequest → TransportOutcome :=
  fun _ => .ok ⟨some [StreamItem.event taggedEvent1, StreamItem.event untaggedEvent]⟩

/-! ## Helper lemmas about stream consumption -/

/-- Consuming a stream of plain events collects exactly the tagged
outputs, appended in arrival order to the accumulator. -/
theorem consumeStream_events (events : List FlowEvent) (acc : List JValue) :
    consumeStream (events.map StreamItem.event) acc = Except.ok (acc ++ collectTagged events) := by
  induction events generalizing acc with
  | nil => simp [consumeStream, collectTagged]
  | cons e rest ih =>
    cases h : lookupField e "flowOutputEvent" with
    | none => simp [consumeStream, h, ih, collectTagged, List.filterMap_cons]
    | some v => simp [consumeStream, h, ih, collectTagged, List.filterMap_cons]

/-- An exception raised mid-iteration propagates out of the loop no
matter how many events preceded it. -/
theorem consumeStream_raiseAt (pre : List FlowEvent) (m : String) (rest : List StreamItem)
    (acc : List JValue) :
    consumeStream (pre.map StreamItem.event ++ StreamItem.raise m :: rest) acc =
      Except.error m := by
  induction pre generalizing acc with
  | nil => simp [consumeStream]
  | cons e pre ih =>
    cases h : lookupField e "flowOutputEvent" with
    | none => simp [consumeStream, h, ih]
    | some v => simp [consumeStream, h, ih]

/-- Every envelope produced by _process_flow_response is well formed and
carries the timestamp. -/
theorem process_flow_response_wf (r : FlowResponse) (now : String) :
    wellFormed (process_flow_response r now) = true ∧
    (process_flow_response r now).timestamp = some now := by
  obtain ⟨s⟩ := r
  cases s with
  | none => simp [process_flow_response, wellFormed]
  | some body =>
    cases h : consumeStream body [] with
    | ok result => simp [process_flow_response, h, wellFormed]
    | error e => simp [process_flow_response, h, wellFormed]

/-- Invoking the flow when the service answers with a stream of plain
events returns the success envelope with the tagged outputs. -/
theorem invoke_flow_events (cfg : BedrockFlowConfig)
    (service : FlowInvocationRequest → TransportOutcome)
    (input_data : JValue) (now : String) (events : List FlowEvent)
    (h : service (build_request cfg input_data) =
      TransportOutcome.ok ⟨some (events.map StreamItem.event)⟩) :
    invoke_flow cfg service input_data now =
      InvokeResult.returns ⟨true, some (collectTagged events), none, some now⟩ := by
  simp [invoke_flow, h, process_flow_response, consumeStream_events]

/-- Every response of the POST /invoke-flow route is a 500 with an inline
error envelope, the 400 no-input response, or a 200 carrying an envelope
produced by _process_flow_response. -/
theorem invoke_flow_route_cases (cfg : BedrockFlowConfig)
    (service : FlowInvocationRequest → TransportOutcome)
    (body : BodyOutcome) (now : String) :
    (∃ m, (invoke_flow_route cfg service body now).fst = ⟨500, error_envelope m⟩)
    ∨ (invoke_flow_route cfg service body now).fst = ⟨400, error_envelope "No input provided"⟩
    ∨ (∃ r, (invoke_flow_route cfg service body now).fst = ⟨200, process_flow_response r now⟩) := by
  cases body with
  | raise m => exact Or.inl ⟨m, rfl⟩
  | parsed v =>
    cases hg : pyGet v "input" (JValue.str "") with
    | error m =>
      simp only [invoke_flow_route, hg]
      exact Or.inl ⟨m, rfl⟩
    | ok u =>
      by_cases ht : u.toBool
      · simp only [invoke_flow_route, hg, ht, if_true]
        cases hs : service (build_request cfg (route_flow_input u now)) with
        | ok r =>
          simp only [invoke_flow, hs]
          exact Or.inr (Or.inr ⟨r, rfl⟩)
        | raise m =>
          simp only [invoke_flow, hs]
          exact Or.inl ⟨m, rfl⟩
      · simp [invoke_flow_route, hg, if_neg ht]

/-! ## Claim theorems -/

/-- C1, counterexample: the claim says no error around the external call
escapes invoke_flow, but when the transport call itself raises (here
"boom"), the except of lines 74-76 logs and re-raises: the caller sees
the exception, not a normalized envelope. -/
theorem c1_counterexample :
    invoke_flow cfg0 downService (route_flow_input (JValue.str "hi") "t") "t" =
      InvokeResult.raises "boom" := rfl

/-- C1, amended: an error raised while consuming the stream is caught by
_process_flow_response and returned as the normalized failure envelope
with a timestamp, but an error in the external-service call itself is
re-raised by invoke_flow and escapes to its caller. -/
theorem c1_amended :
    (∀ (pre : List FlowEvent) (m : String) (rest : List StreamItem) (now : String),
      process_flow_response ⟨some (pre.map StreamItem.event ++ StreamItem.raise m :: rest)⟩ now =
        ⟨false, none, some m, some now⟩)
    ∧ (∀ (cfg : BedrockFlowConfig) (service : FlowInvocationRequest → TransportOutcome)
        (input_data : JValue) (now m : String),
        service (build_request cfg input_data) = TransportOutcome.raise m →
        invoke_flow cfg service input_data now = InvokeResult.raises m) := by
  constructor
  · intro pre m rest now
    simp [process_flow_response, consumeStream_raiseAt]
  · intro cfg service input_data now m h
    simp [invoke_flow, h]

/-- C1, witness for the amended claim at concrete inputs: a stream that
raises after zero events is normalized, and a raising transport call
escapes. -/
theorem c1_amended_witness :
    process_flow_response ⟨some [StreamItem.raise "socket closed"]⟩ "t" =
      ⟨false, none, some "socket closed", some "t"⟩
    ∧ invoke_flow cfg0 downService (JValue.str "q") "t" = InvokeResult.raises "boom" :=
  ⟨c1_amended.1 [] "socket closed" [] "t",
   c1_amended.2 cfg0 downService (JValue.str "q") "t" "boom" rfl⟩

/-- C3, counterexample: the claim says an absent or empty stream yields
the "No response from flow" envelope, but a present stream that yields
zero events is truthy (botocore EventStream defines neither __bool__ nor
__len__), so the code returns success with an empty data list instead. -/
theorem c3_counterexample :
    invoke_flow cfg0 emptyStreamService (route_flow_input (JValue.str "hi") "t") "t" =
      InvokeResult.returns ⟨true, some [], none, some "t"⟩ := rfl

/-- C3, amended: only when the stream is absent (the responseStream key
missing or None) does invoke_flow return the
{success: false, error: "No response from flow", timestamp: now}
envelope; a present stream, even one yielding zero events, takes the
success path. -/
theorem c3_amended (cfg : BedrockFlowConfig)
    (service : FlowInvocationRequest → TransportOutcome)
    (input_data : JValue) (now : String)
    (h : service (build_request cfg input_data) = TransportOutcome.ok ⟨none⟩) :
    invoke_flow cfg service input_data now =
      InvokeResult.returns ⟨false, none, some "No response from flow", some now⟩ := by
  simp [invoke_flow, h, process_flow_response]

/-- C3, witness: a service whose response has no responseStream produces
the "No response from flow" envelope. -/
theorem c3_amended_witness :
    invoke_flow cfg0 noStreamService (JValue.str "q") "t" =
      InvokeResult.returns ⟨false, none, some "No response from flow", some "t"⟩ :=
  c3_amended cfg0 noStreamService (JValue.str "q") "t" rfl

/-- C4: when the external-service response carries a stream and
consumption completes normally, invoke_flow returns success with the
collected tagged outputs, and in particular success with data equal to
the empty list when no event carries the flowOutputEvent marker. -/
theorem c4_stream_present_success (cfg : BedrockFlowConfig)
    (service : FlowInvocationRequest → TransportOutcome)
    (input_data : JValue) (now : String) (events : List FlowEvent)
    (h : service (build_request cfg input_data) =
      TransportOutcome.ok ⟨some (events.map StreamItem.event)⟩) :
    invoke_flow cfg service input_data now =
      InvokeResult.returns ⟨true, some (collectTagged events), none, some now⟩
    ∧ (collectTagged events = [] →
      invoke_flow cfg service input_data now =
        InvokeResult.returns ⟨true, some [], none, some now⟩) := by
  have h1 := invoke_flow_events cfg service input_data now events h
  exact ⟨h1, fun he => by rw [h1, he]⟩

/-- C4, witness: a present stream with zero events yields success with an
empty data list. -/
theorem c4_witness :
    invoke_flow cfg0 emptyStreamService (JValue.str "q") "t" =
      InvokeResult.returns ⟨true, some [], none, some "t"⟩ :=
  (c4_stream_present_success cfg0 emptyStreamService (JValue.str "q") "t" [] rfl).2 rfl

/-- C5: the data field is the list of flowOutputEvent payloads of the
stream in arrival order — collectTagged is List.filterMap of the tag
lookup, a tagged event contributes its payload at its position, and an
untagged event contributes nothing. -/
theorem c5_order_preservation :
    (∀ (cfg : BedrockFlowConfig) (service : FlowInvocationRequest → TransportOutcome)
      (input_data : JValue) (now : String) (events : List FlowEvent),
      service (build_request cfg input_data) =
        TransportOutcome.ok ⟨some (events.map StreamItem.event)⟩ →
      invoke_flow cfg service input_data now =
        InvokeResult.returns ⟨true, some (collectTagged events), none, some now⟩)
    ∧ (∀ (e : FlowEvent) (v : JValue) (events : List FlowEvent),
      lookupField e "flowOutputEvent" = some v →
      collectTagged (e :: events) = v :: collectTagged events)
    ∧ (∀ (e : FlowEvent) (events : List FlowEvent),
      lookupField e "flowOutputEvent" = none →
      collectTagged (e :: events) = collectTagged events) := by
  refine ⟨fun cfg service input_data now events h => invoke_flow_events cfg service input_data now events h, ?_, ?_⟩
  · intro e v events h
    simp [collectTagged, List.filterMap_cons, h]
  · intro e events h
    simp [collectTagged, List.filterMap_cons, h]

/-- C5, witness: a stream of one tagged then one untagged event yields
exactly the tagged payload, and the two cons laws hold at those
events. -/
theorem c5_witness :
    invoke_flow cfg0 twoEventService (JValue.str "q") "t" =
      InvokeResult.returns ⟨true, some [JValue.str "out1"], none, some "t"⟩
    ∧ collectTagged [taggedEvent1, untaggedEvent] =
      JValue.str "out1" :: collectTagged [untaggedEvent]
    ∧ collectTagged [untaggedEvent] = collectTagged [] :=
  ⟨c5_order_preservation.1 cfg0 twoEventService (JValue.str "q") "t"
      [taggedEvent1, untaggedEvent] rfl,
   c5_order_preservation.2.1 taggedEvent1 (JValue.str "out1") [untaggedEvent] rfl,
   c5_order_preservation.2.2 untaggedEvent [] rfl⟩

/-- C6: when the parsed body is an object whose input field is missing or
the empty string, the route answers 400 with the
{success: false, error: "No input provided"} body and sends no request
to the flow client. -/
theorem c6_no_input_400 (cfg : BedrockFlowConfig)
    (service : FlowInvocationRequest → TransportOutcome)
    (fields : List (String × JValue)) (now : String)
    (h : lookupField fields "input" = none ∨
      lookupField fields "input" = some (JValue.str "")) :
    invoke_flow_route cfg service (BodyOutcome.parsed (JValue.obj fields)) now =
      (⟨400, error_envelope "No input provided"⟩, []) := by
  rcases h with h | h <;> simp [invoke_flow_route, pyGet, h, JValue.toBool]

/-- C6, witness: both a body without an input key and a body with an
empty-string input get the 400 response and no client call. -/
theorem c6_witness :
    invoke_flow_route cfg0 downService (BodyOutcome.parsed (JValue.obj [])) "t" =
      (⟨400, error_envelope "No input provided"⟩, [])
    ∧ invoke_flow_route cfg0 downService
        (BodyOutcome.parsed (JValue.obj [("input", JValue.str "")])) "t" =
      (⟨400, error_envelope "No input provided"⟩, []) :=
  ⟨c6_no_input_400 cfg0 downService [] "t" (Or.inl rfl),
   c6_no_input_400 cfg0 downService [("input", JValue.str "")] "t" (Or.inr rfl)⟩

/-- C7: the health route returns status 200 with body
{status: "healthy", timestamp: now} for every timestamp; its definition
takes no collaborator, so no dependency can make it fail. -/
theorem c7_health_always_healthy (now : String) :
    health_check now = (200, ⟨"healthy", now⟩) := rfl

/-- C2, counterexample: the claim says a timestamp field is always
present, but the 400 body the route builds inline for an empty input has
no timestamp key. -/
theorem c2_counterexample :
    (invoke_flow_route cfg0 emptyStreamService
      (BodyOutcome.parsed (JValue.obj [("input", JValue.str "")])) "t").fst.body.timestamp =
      none := rfl

/-- C2, amended: every envelope on every path populates exactly one of
data (when success) or error (when failure), consistently with success;
the timestamp is present in every envelope produced by
_process_flow_response — hence in every 200 body of the route — but is
absent from the bodies the route builds inline for its 400 and 500
responses (and from the envelope test_flow builds when the client
raises). -/
theorem c2_amended :
    (∀ (r : FlowResponse) (now : String),
      wellFormed (process_flow_response r now) = true
      ∧ (process_flow_response r now).timestamp = some now)
    ∧ (∀ (cfg : BedrockFlowConfig) (service : FlowInvocationRequest → TransportOutcome)
        (body : BodyOutcome) (now : String),
      wellFormed (invoke_flow_route cfg service body now).fst.body = true
      ∧ ((invoke_flow_route cfg service body now).fst.status = 200 →
        (invoke_flow_route cfg service body now).fst.body.timestamp = some now)
      ∧ ((invoke_flow_route cfg service body now).fst.status ≠ 200 →
        (invoke_flow_route cfg service body now).fst.body.timestamp = none))
    ∧ (∀ (cfg : BedrockFlowConfig) (service : FlowInvocationRequest → TransportOutcome)
        (test_input now : String),
      wellFormed (test_flow cfg service test_input now).fst = true
      ∧ (∀ m, invoke_flow cfg service (test_flow_input test_input now) now =
            InvokeResult.raises m →
          (test_flow cfg service test_input now).fst.timestamp = none)) := by
  refine ⟨process_flow_response_wf, ?_, ?_⟩
  · intro cfg service body now
    rcases invoke_flow_route_cases cfg service body now with ⟨m, h⟩ | h | ⟨r, h⟩
    · rw [h]
      exact ⟨rfl, fun hs => by simp at hs, fun _ => rfl⟩
    · rw [h]
      exact ⟨rfl, fun hs => by simp at hs, fun _ => rfl⟩
    · rw [h]
      exact ⟨(process_flow_response_wf r now).1,
        fun _ => (process_flow_response_wf r now).2,
        fun hs => absurd rfl hs⟩
  · intro cfg service test_input now
    constructor
    · cases hs : service (build_request cfg (test_flow_input test_input now)) with
      | ok r =>
        simp only [test_flow, invoke_flow, hs]
        exact (process_flow_response_wf r now).1
      | raise m =>
        simp only [test_flow, invoke_flow, hs]
        rfl
    · intro m hm
      simp only [test_flow, hm]
      rfl

/-- C2, witness for the amended claim: at a truthy input with a service
whose stream is empty, the route answers 200 with a well-formed body
carrying the timestamp; with a raising service, test_flow returns a
well-formed exception envelope whose timestamp is absent. -/
theorem c2_amended_witness :
    (wellFormed (process_flow_response ⟨none⟩ "t") = true
      ∧ (process_flow_response ⟨none⟩ "t").timestamp = some "t")
    ∧ wellFormed (invoke_flow_route cfg0 emptyStreamService
        (BodyOutcome.parsed (JValue.obj [("input", JValue.str "hi")])) "t").fst.body = true
    ∧ (invoke_flow_route cfg0 emptyStreamService
        (BodyOutcome.parsed (JValue.obj [("input", JValue.str "hi")])) "t").fst.body.timestamp =
      some "t"
    ∧ wellFormed (test_flow cfg0 downService "hi" "t").fst = true
    ∧ (test_flow cfg0 downService "hi" "t").fst.timestamp = none :=
  ⟨c2_amended.1 ⟨none⟩ "t",
   (c2_amended.2.1 cfg0 emptyStreamService
      (BodyOutcome.parsed (JValue.obj [("input", JValue.str "hi")])) "t").1,
   (c2_amended.2.1 cfg0 emptyStreamService
      (BodyOutcome.parsed (JValue.obj [("input", JValue.str "hi")])) "t").2.1 rfl,
   (c2_amended.2.2 cfg0 downService "hi" "t").1,
   (c2_amended.2.2 cfg0 downService "hi" "t").2 "boom" rfl⟩

/-- C8: test_flow builds exactly the flow input the route builds for the
same text — {query: text, timestamp: now} — both hand the client one
request, those requests are identical, and the built payload is passed
unchanged as the content field of the invocation request. -/
theorem c8_test_flow_same_input_shape (cfg : BedrockFlowConfig)
    (service : FlowInvocationRequest → TransportOutcome)
    (text now : String) (h : text ≠ "") :
    test_flow_input text now = route_flow_input (JValue.str text) now
    ∧ (test_flow cfg service text now).snd =
      (invoke_flow_route cfg service
        (BodyOutcome.parsed (JValue.obj [("input", JValue.str text)])) now).snd
    ∧ (build_request cfg (test_flow_input text now)).content = test_flow_input text now := by
  have ht : (JValue.str text).toBool = true := by
    simp [JValue.toBool, h]
  have hroute : invoke_flow_route cfg service
      (BodyOutcome.parsed (JValue.obj [("input", JValue.str text)])) now =
      (if (JValue.str text).toBool then
        match invoke_flow cfg service (route_flow_input (JValue.str text) now) now with
        | .returns result =>
          (⟨200, result⟩, [build_request cfg (route_flow_input (JValue.str text) now)])
        | .raises m =>
          (⟨500, error_envelope m⟩, [build_request cfg (route_flow_input (JValue.str text) now)])
      else (⟨400, error_envelope "No input provided"⟩, [])) := rfl
  refine ⟨rfl, ?_, rfl⟩
  have e1 : test_flow_input text now = route_flow_input (JValue.str text) now := rfl
  rw [hroute, ht]
  simp only [test_flow, e1]
  cases hs : invoke_flow cfg service (route_flow_input (JValue.str text) now) now <;>
    simp [hs]

/-- C8, witness: at the text "hello" the two paths build the same payload
and send the client the same single request. -/
theorem c8_witness :
    test_flow_input "hello" "t" = route_flow_input (JValue.str "hello") "t"
    ∧ (test_flow cfg0 emptyStreamService "hello" "t").snd =
      (invoke_flow_route cfg0 emptyStreamService
        (BodyOutcome.parsed (JValue.obj [("input", JValue.str "hello")])) "t").snd
    ∧ (build_request cfg0 (test_flow_input "hello" "t")).content = test_flow_input "hello" "t" :=
  c8_test_flow_same_input_shape cfg0 emptyStreamService "hello" "t" (by decide)

/-- C9: when request.get_json raises (absent body, wrong content type,
unparseable JSON) the route answers 500 with an inline error body, and
when the parsed body is a JSON value that is not an object the attribute
access on it raises and the route also answers 500 — in neither case the
400 "No input provided" response — and the client is never invoked. -/
theorem c9_bad_body_500 :
    (∀ (cfg : BedrockFlowConfig) (service : FlowInvocationRequest → TransportOutcome)
      (m now : String),
      invoke_flow_route cfg service (BodyOutcome.raise m) now =
        (⟨500, error_envelope m⟩, []))
    ∧ (∀ (cfg : BedrockFlowConfig) (service : FlowInvocationRequest → TransportOutcome)
      (v : JValue) (now : String), v.isObj = false →
      invoke_flow_route cfg service (BodyOutcome.parsed v) now =
        (⟨500, error_envelope "AttributeError: object has no attribute get"⟩, [])) := by
  constructor
  · intro cfg service m now
    rfl
  · intro cfg service v now hv
    cases v <;> simp_all [JValue.isObj, invoke_flow_route, pyGet]

/-- C9, witness: an unparseable body and a JSON-null body both get a 500
with an error message distinct from the 400 no-input response. -/
theorem c9_witness :
    invoke_flow_route cfg0 downService (BodyOutcome.raise "Failed to decode JSON object") "t" =
      (⟨500, error_envelope "Failed to decode JSON object"⟩, [])
    ∧ invoke_flow_route cfg0 downService (BodyOutcome.parsed JValue.null) "t" =
      (⟨500, error_envelope "AttributeError: object has no attribute get"⟩, []) :=
  ⟨c9_bad_body_500.1 cfg0 downService "Failed to decode JSON object" "t",
   c9_bad_body_500.2 cfg0 downService JValue.null "t" rfl⟩

/-- C10: the input check is Python truthiness — every falsy JSON value
under the input key (false, 0, null, empty string, empty array, empty
object) gets the 400 no-input response with no client call, and every
truthy value of any JSON type is accepted and forwarded to the client as
the query field of the flow input. -/
theorem c10_truthiness_check (cfg : BedrockFlowConfig)
    (service : FlowInvocationRequest → TransportOutcome)
    (v : JValue) (now : String) :
    (v.toBool = false →
      invoke_flow_route cfg service (BodyOutcome.parsed (JValue.obj [("input", v)])) now =
        (⟨400, error_envelope "No input provided"⟩, []))
    ∧ (v.toBool = true →
      (invoke_flow_route cfg service (BodyOutcome.parsed (JValue.obj [("input", v)])) now).snd =
        [build_request cfg (route_flow_input v now)]) := by
  have hget : pyGet (JValue.obj [("input", v)]) "input" (JValue.str "") = .ok v := rfl
  constructor
  · intro hf
    simp [invoke_flow_route, hget, hf]
  · intro ht
    simp only [invoke_flow_route, hget, ht, if_true]
    cases hs : invoke_flow cfg service (route_flow_input v now) now <;> simp [hs]

/-- C10, witness: the falsy non-string false gets the 400 response, and
the truthy non-string [1] is forwarded as the query field. -/
theorem c10_witness :
    invoke_flow_route cfg0 downService
      (BodyOutcome.parsed (JValue.obj [("input", JValue.bool false)])) "t" =
      (⟨400, error_envelope "No input provided"⟩, [])
    ∧ (invoke_flow_route cfg0 downService
        (BodyOutcome.parsed (JValue.obj [("input", JValue.arr [JValue.num 1])])) "t").snd =
      [build_request cfg0 (route_flow_input (JValue.arr [JValue.num 1]) "t")] :=
  ⟨(c10_truthiness_check cfg0 downService (JValue.bool false) "t").1 rfl,
   (c10_truthiness_check cfg0 downService (JValue.arr [JValue.num 1]) "t").2 rfl⟩

end BedrockFlow
